import Mathlib

/-!
Shallow embedding of src/app.py (Madison Web Clarity & Empathy Analyzer).
The logical surface of the app is: an input collector that splits a pasted
text block into trimmed non-blank lines (lines 193-196), a constant mock
analyzer (lines 148-187), an aggregator building summary rows and four
counts (lines 207-231), a chart projection (lines 246-251) and a presenter
with a URL selector and a first-match detail lookup (lines 257-262).
-/

namespace Madison

/-- Whitespace predicate modelling Python str.strip's character class
(the characters relevant here: ASCII whitespace plus the Unicode
line/paragraph separators that Python also treats as space). -/
def isSpace (c : Char) : Bool :=
  c == ' ' || c == '\t' || c == '\n' || c == '\r' || c == '\x0b' || c == '\x0c' ||
  c == '\x1c' || c == '\x1d' || c == '\x1e' || c == '\x1f' || c == '\x85' ||
  c == '\u2028' || c == '\u2029'

/-- Line-break predicate modelling Python str.splitlines's separator set.
Every line break is also whitespace for str.strip. -/
def isLineBreak (c : Char) : Bool :=
  c == '\n' || c == '\r' || c == '\x0b' || c == '\x0c' ||
  c == '\x1c' || c == '\x1d' || c == '\x1e' || c == '\x85' ||
  c == '\u2028' || c == '\u2029'

/-- Strip leading and trailing whitespace from a character list
(Python str.strip over the string's characters). -/
def stripList (l : List Char) : List Char :=
  ((l.dropWhile isSpace).reverse.dropWhile isSpace).reverse

/-- Python str.strip on a string. -/
def strip (s : String) : String :=
  ⟨stripList s.data⟩

/-- Split a character list at line-break characters.  A CRLF pair produces
an extra empty segment compared to Python splitlines, and a trailing
break produces a trailing empty segment; both are discarded by the
collector's blank-line filter, so the collector below agrees with the
Python pipeline. -/
def splitLinesAux : List Char → List Char → List (List Char)
  | [], acc => [acc.reverse]
  | c :: cs, acc =>
    if isLineBreak c then acc.reverse :: splitLinesAux cs []
    else splitLinesAux cs (c :: acc)

/-- Python str.splitlines (up to the empty segments noted above). -/
def splitLines (s : String) : List String :=
  (splitLinesAux s.data []).map (fun l => ⟨l⟩)

/-- Lines 193-196 of src/app.py: the input collector.
if urls_text.strip(): urls = [u.strip() for u in urls_text.splitlines() if u.strip()]
The comprehension filters the raw lines on non-blank strip, then maps strip. -/
def collect (text : String) : List String :=
  if strip text ≠ "" then
    ((splitLines text).filter (fun u => strip u != "")).map strip
  else []

/-- The analysis record returned by analyze_url_dummy (lines 148-187). -/
structure AnalysisRecord where
  url : String
  empathy_score : String
  clarity_score : String
  wcag_status : String
  visual_schema : String
  summary : String
  rewrite_suggestion : String
  low_literacy_note : String
  tone_safety_note : String
  hierarchy_note : String
  visual_stress_note : String
  recommendations : List String
deriving DecidableEq

/-- Lines 148-187 of src/app.py: the mock analyzer, a constant record
except that the url field echoes the input. -/
def analyze_url_dummy (url : String) : AnalysisRecord where
  url := url
  empathy_score := "Medium"
  clarity_score := "High"
  wcag_status := "Pass (AA demo)"
  visual_schema := "Content-heavy layout"
  summary :=
    "Demo summary: content is generally clear but could be simplified for low-literacy readers."
  rewrite_suggestion :=
    "Shorten long sentences, reduce jargon, and add headings and bullet points for key actions."
  low_literacy_note :=
    "Contains a few long sentences; consider simpler language and shorter paragraphs."
  tone_safety_note :=
    "Tone is mostly calm and neutral. Avoid phrases that sound alarming or judgmental."
  hierarchy_note :=
    "Main message appears, but headings and bullets could be used more consistently."
  visual_stress_note :=
    "Text blocks are a bit dense. Adding spacing and subheadings would reduce visual fatigue."
  recommendations :=
    ["Break long paragraphs into 2–3 shorter ones.",
     "Use headings for key sections like ‘What this means’ and ‘What to do next’.",
     "Replace medical jargon with patient-friendly words where possible."]

/-- One row of the summary dataframe (lines 208-217): the columns
URL, Empathy, Clarity, WCAG, Visual schema. -/
structure SummaryRow where
  URL : String
  Empathy : String
  Clarity : String
  WCAG : String
  VisualSchema : String
deriving DecidableEq

/-- Lines 210-216: projection of one record to its summary row. -/
def toSummaryRow (r : AnalysisRecord) : SummaryRow :=
  ⟨r.url, r.empathy_score, r.clarity_score, r.wcag_status, r.visual_schema⟩

/-- Lines 208-217: the summary dataframe built from the result records. -/
def summaryRows (rs : List AnalysisRecord) : List SummaryRow :=
  rs.map toSummaryRow

/-- Line 226: total_urls = len(df). -/
def total_urls (df : List SummaryRow) : Nat := df.length

/-- Line 229: (df["Clarity"] == "High").sum(). -/
def high_clarity (df : List SummaryRow) : Nat :=
  df.countP (fun r => r.Clarity == "High")

/-- Line 230: df["Empathy"].isin(["Medium", "High"]).sum(). -/
def good_empathy (df : List SummaryRow) : Nat :=
  df.countP (fun r => ["Medium", "High"].contains r.Empathy)

/-- Case-sensitive substring containment, modelling pandas
Series.str.contains with the literal pattern "Pass" (no regex
metacharacters, so regex and literal matching coincide). -/
def containsSubstr (s pat : String) : Bool :=
  decide (pat.data <:+: s.data)

/-- Line 231: df["WCAG"].str.contains("Pass").sum(). -/
def wcag_pass (df : List SummaryRow) : Nat :=
  df.countP (fun r => containsSubstr r.WCAG "Pass")

/-- Line 227: score_map = \x7b"Low": 1, "Medium": 2, "High": 3\x7d, read as a
lookup that is undefined outside its three keys (pandas .map yields a
missing value, never an error). -/
def score_map (s : String) : Option Nat :=
  if s = "Low" then some 1
  else if s = "Medium" then some 2
  else if s = "High" then some 3
  else none

/-- One bar group of the chart (lines 246-249): the URL index and the two
mapped ordinal columns, missing when the score is outside the map. -/
structure ChartRow where
  URL : String
  clarityScore : Option Nat
  empathyScore : Option Nat
deriving DecidableEq

/-- Lines 246-249: chart_df with the two mapped columns, indexed by URL. -/
def chart_df (df : List SummaryRow) : List ChartRow :=
  df.map (fun r => ⟨r.URL, score_map r.Clarity, score_map r.Empathy⟩)

/-- Lines 257-260: the option list of the URL selector is
df["URL"].tolist(), the URL column as-is. -/
def selector_options (df : List SummaryRow) : List String :=
  df.map (fun r => r.URL)

/-- Streamlit selectbox defaults to the first option. -/
def selector_default (df : List SummaryRow) : Option String :=
  (selector_options df).head?

/-- The spec's words for the selector options (section 4.4 (e)): the
distinct URLs in result order, keeping first occurrences.  Stated for
comparison with selector_options, which is what the code computes. -/
def distinctInOrder : List String → List String
  | [] => []
  | x :: xs => x :: (distinctInOrder xs).filter (fun y => y != x)

/-- Line 262: next(item for item in results if item["url"] == selected_url),
the first record whose url equals the selection. -/
def selected_item (results : List AnalysisRecord) (sel : String) : Option AnalysisRecord :=
  results.find? (fun r => r.url == sel)

/-- The status message emitted by the main action (lines 199 and 201). -/
inductive StatusMsg where
  | silent
  | warning
  | success (n : Nat)
deriving DecidableEq

/-- The script-level state: the results list and df variables of
lines 190-191, plus the status message shown. -/
structure AppState where
  results : List AnalysisRecord
  df : Option (List SummaryRow)
  status : StatusMsg
deriving DecidableEq

/-- Lines 190-217: one execution of the script's main action.  The
previous state is an explicit argument; lines 190-191 reassign
results = [] and df = None before anything else, so it is discarded. -/
def scriptRun (prev : AppState) (text : String) (pressed : Bool) : AppState :=
  let _ := prev
  let s0 : AppState := ⟨[], none, StatusMsg.silent⟩
  if pressed then
    let urls := collect text
    if urls.isEmpty then { s0 with status := StatusMsg.warning }
    else
      let rs := urls.map analyze_url_dummy
      { results := rs, df := some (summaryRows rs), status := StatusMsg.success urls.length }
  else s0

/-- Line 220: the results section renders only when results is non-empty
and df is not None. -/
def results_rendered (s : AppState) : Bool :=
  !s.results.isEmpty && s.df.isSome

/-! ### Helper lemmas about stripping and line splitting -/

theorem head?_dropWhile_false {α : Type} (p : α → Bool) (l : List α) (c : α)
    (h : (l.dropWhile p).head? = some c) : p c = false := by
  have hm := List.head?_dropWhile_not p l
  rw [h] at hm
  simpa using hm

theorem dropWhile_eq_self_of_head? {α : Type} {p : α → Bool} {l : List α}
    (h : ∀ c, l.head? = some c → p c = false) : l.dropWhile p = l := by
  cases l with
  | nil => rfl
  | cons a t =>
    have ha := h a rfl
    simp [List.dropWhile_cons, ha]

theorem getLast?_of_suffix {α : Type} {l m : List α} (h : m <:+ l) (hm : m ≠ []) :
    m.getLast? = l.getLast? := by
  obtain ⟨t, rfl⟩ := h
  rw [List.getLast?_append]
  cases hml : m.getLast? with
  | none => exact absurd (List.getLast?_eq_none_iff.mp hml) hm
  | some a => rfl

theorem stripList_head?_false {l : List Char} {c : Char}
    (h : (stripList l).head? = some c) : isSpace c = false := by
  unfold stripList at h
  rw [List.head?_reverse] at h
  have hne : ((l.dropWhile isSpace).reverse).dropWhile isSpace ≠ [] := by
    intro hn
    rw [hn] at h
    simp at h
  have hsuf : ((l.dropWhile isSpace).reverse).dropWhile isSpace <:+
      (l.dropWhile isSpace).reverse := List.dropWhile_suffix isSpace
  rw [getLast?_of_suffix hsuf hne, List.getLast?_reverse] at h
  exact head?_dropWhile_false _ _ _ h

theorem stripList_getLast?_false {l : List Char} {c : Char}
    (h : (stripList l).getLast? = some c) : isSpace c = false := by
  unfold stripList at h
  rw [List.getLast?_reverse] at h
  exact head?_dropWhile_false _ _ _ h

theorem stripList_idem (l : List Char) : stripList (stripList l) = stripList l := by
  show ((((stripList l).dropWhile isSpace).reverse).dropWhile isSpace).reverse = stripList l
  rw [dropWhile_eq_self_of_head? (fun c hc => stripList_head?_false hc)]
  rw [dropWhile_eq_self_of_head? (fun c hc => by
    rw [List.head?_reverse] at hc
    exact stripList_getLast?_false hc)]
  exact List.reverse_reverse _

theorem strip_idem (s : String) : strip (strip s) = strip s := by
  show (⟨stripList (stripList s.data)⟩ : String) = ⟨stripList s.data⟩
  rw [stripList_idem]

theorem stripList_eq_nil_of_all {l : List Char} (h : ∀ c ∈ l, isSpace c) :
    stripList l = [] := by
  unfold stripList
  rw [List.dropWhile_eq_nil_iff.mpr h]
  rfl

theorem all_isSpace_of_stripList_eq_nil {l : List Char} (h : stripList l = []) :
    ∀ c ∈ l, isSpace c = true := by
  unfold stripList at h
  rw [List.reverse_eq_nil_iff, List.dropWhile_eq_nil_iff] at h
  intro c hc
  have hsplit := List.takeWhile_append_dropWhile (p := isSpace) (l := l)
  rw [← hsplit, List.mem_append] at hc
  rcases hc with hc | hc
  · exact List.mem_takeWhile_imp hc
  · exact h c (List.mem_reverse.mpr hc)

theorem strip_eq_empty_iff (s : String) :
    strip s = "" ↔ ∀ c ∈ s.data, isSpace c = true := by
  constructor
  · intro h
    apply all_isSpace_of_stripList_eq_nil
    have hd : (strip s).data = [] := by rw [h]
    exact hd
  · intro h
    show (⟨stripList s.data⟩ : String) = ""
    rw [stripList_eq_nil_of_all h]

theorem mem_of_mem_splitLinesAux :
    ∀ (l acc seg : List Char), seg ∈ splitLinesAux l acc → ∀ c ∈ seg, c ∈ l ∨ c ∈ acc := by
  intro l
  induction l with
  | nil =>
    intro acc seg hseg c hc
    simp only [splitLinesAux, List.mem_singleton] at hseg
    subst hseg
    exact Or.inr (List.mem_reverse.mp hc)
  | cons a t ih =>
    intro acc seg hseg c hc
    simp only [splitLinesAux] at hseg
    by_cases hb : isLineBreak a = true
    · rw [if_pos hb] at hseg
      rcases List.mem_cons.mp hseg with h | h
      · subst h
        exact Or.inr (List.mem_reverse.mp hc)
      · rcases ih [] seg h c hc with h' | h'
        · exact Or.inl (List.mem_cons_of_mem _ h')
        · simp at h'
    · rw [if_neg hb] at hseg
      rcases ih (a :: acc) seg hseg c hc with h' | h'
      · exact Or.inl (List.mem_cons_of_mem _ h')
      · rcases List.mem_cons.mp h' with h'' | h''
        · subst h''
          exact Or.inl (List.mem_cons_self _ _)
        · exact Or.inr h''

theorem collect_lines_blank (text : String) (h : strip text = "") :
    ∀ u ∈ splitLines text, strip u = "" := by
  intro u hu
  rw [strip_eq_empty_iff] at h ⊢
  intro c hc
  simp only [splitLines, List.mem_map] at hu
  obtain ⟨seg, hseg, rfl⟩ := hu
  rcases mem_of_mem_splitLinesAux _ _ _ hseg c hc with h' | h'
  · exact h c h'
  · simp at h'

theorem collect_eq_filtered_map (text : String) :
    collect text = ((splitLines text).filter (fun u => strip u != "")).map strip := by
  unfold collect
  split
  · rfl
  · next h =>
    push_neg at h
    have hnil : (splitLines text).filter (fun u => strip u != "") = [] := by
      rw [List.filter_eq_nil_iff]
      intro u hu
      have := collect_lines_blank text h u hu
      simp [this]
    rw [hnil]
    rfl

/-- C1: for every raw multi-line input text, the collector returns the
sequence obtained by splitting the text on line breaks, trimming each
line and discarding blank lines, in original order with duplicates
retained, and its length is the number of non-blank (post-trim) lines. -/
theorem collect_correct (text : String) :
    collect text = ((splitLines text).map strip).filter (fun u => u != "") ∧
    (collect text).length = (splitLines text).countP (fun u => strip u != "") := by
  constructor
  · rw [collect_eq_filtered_map, List.filter_map]
    rfl
  · rw [collect_eq_filtered_map, List.length_map, List.countP_eq_length_filter]

/-- C2: the mock analyzer is total, echoes its input in the url field, and
every other field is the same fixed literal for every input, so two
records of a run differ at most in their url. -/
theorem analyze_constant_except_url (u v : String) :
    (analyze_url_dummy u).url = u ∧
    (analyze_url_dummy u).empathy_score = "Medium" ∧
    (analyze_url_dummy u).clarity_score = "High" ∧
    (analyze_url_dummy u).wcag_status = "Pass (AA demo)" ∧
    (analyze_url_dummy u).visual_schema = "Content-heavy layout" ∧
    (analyze_url_dummy u).recommendations.length = 3 ∧
    analyze_url_dummy u = { analyze_url_dummy v with url := u } :=
  ⟨rfl, rfl, rfl, rfl, rfl, rfl, rfl⟩

/-- C3: the aggregator computes exactly the four counts: total record
count, records with clarity High, records with empathy Medium or High,
and records whose wcag status contains the substring Pass. -/
theorem aggregator_counts (rs : List AnalysisRecord) :
    total_urls (summaryRows rs) = rs.length ∧
    high_clarity (summaryRows rs) = rs.countP (fun r => r.clarity_score == "High") ∧
    good_empathy (summaryRows rs) =
      rs.countP (fun r => r.empathy_score == "Medium" || r.empathy_score == "High") ∧
    wcag_pass (summaryRows rs) = rs.countP (fun r => containsSubstr r.wcag_status "Pass") := by
  refine ⟨?_, ?_, ?_, ?_⟩
  · simp [total_urls, summaryRows]
  · unfold high_clarity summaryRows
    rw [List.countP_map]
    rfl
  · unfold good_empathy summaryRows
    rw [List.countP_map]
    apply List.countP_congr
    intro r _
    show (["Medium", "High"].contains r.empathy_score) = true ↔ _
    simp [List.contains_cons]
  · unfold wcag_pass summaryRows
    rw [List.countP_map]
    rfl

/-- C4: when the collector yields no URLs, a button press produces the
warning status, an empty results list (the analyzer is never invoked),
no dataframe, and the results section is not rendered. -/
theorem empty_input_warns (prev : AppState) (text : String)
    (h : collect text = []) :
    scriptRun prev text true = ⟨[], none, StatusMsg.warning⟩ ∧
    results_rendered (scriptRun prev text true) = false := by
  have hrun : scriptRun prev text true = ⟨[], none, StatusMsg.warning⟩ := by
    simp [scriptRun, h]
  exact ⟨hrun, by rw [hrun]; rfl⟩

/-- Witness for C4 at the all-blank input of the spec's scenario. -/
theorem empty_input_warns_witness :
    collect "   " = [] ∧
    (scriptRun ⟨[], none, StatusMsg.silent⟩ "   " true = ⟨[], none, StatusMsg.warning⟩ ∧
     results_rendered (scriptRun ⟨[], none, StatusMsg.silent⟩ "   " true) = false) :=
  ⟨by decide, empty_input_warns ⟨[], none, StatusMsg.silent⟩ "   " (by decide)⟩

/-- C8: each of the three aggregator counts lies between 0 and the total
record count. -/
theorem counts_bounded (rs : List AnalysisRecord) :
    (0 ≤ high_clarity (summaryRows rs) ∧
      high_clarity (summaryRows rs) ≤ total_urls (summaryRows rs)) ∧
    (0 ≤ good_empathy (summaryRows rs) ∧
      good_empathy (summaryRows rs) ≤ total_urls (summaryRows rs)) ∧
    (0 ≤ wcag_pass (summaryRows rs) ∧
      wcag_pass (summaryRows rs) ≤ total_urls (summaryRows rs)) :=
  ⟨⟨Nat.zero_le _, List.countP_le_length _⟩,
   ⟨Nat.zero_le _, List.countP_le_length _⟩,
   ⟨Nat.zero_le _, List.countP_le_length _⟩⟩

/-- C9: one script execution is a pure function of the input text and the
button press: the previous state never influences the outcome, and
re-running on the same text reproduces the same records, rows and
status exactly. -/
theorem pipeline_stateless (prev₁ prev₂ : AppState) (text : String) (pressed : Bool) :
    scriptRun prev₁ text pressed = scriptRun prev₂ text pressed ∧
    scriptRun (scriptRun prev₁ text pressed) text pressed = scriptRun prev₁ text pressed :=
  ⟨rfl, rfl⟩

/-! ### A concrete sample run, used to instantiate the theorems -/

/-- The duplicate-URL scenario of the spec: the same URL pasted twice. -/
def sampleURLs : List String := ["https://x.com", "https://x.com"]

/-- The records produced for the sample run. -/
def sampleRecords : List AnalysisRecord := sampleURLs.map analyze_url_dummy

theorem find?_eq_head?_filter {α : Type} (p : α → Bool) (l : List α) :
    l.find? p = (l.filter p).head? := by
  induction l with
  | nil => rfl
  | cons a t ih =>
    by_cases h : p a = true
    · rw [List.find?_cons_of_pos _ h, List.filter_cons_of_pos h]
      rfl
    · rw [List.find?_cons_of_neg _ h, List.filter_cons_of_neg h, ih]

/-- C5: when at least one result record matches the selected URL, the
detail lookup succeeds (no error) and returns the first record in
result order whose url equals the selection. -/
theorem selected_item_first_match (rs : List AnalysisRecord) (sel : String)
    (h : ∃ r ∈ rs, r.url = sel) :
    (selected_item rs sel).isSome = true ∧
    selected_item rs sel = (rs.filter (fun r => r.url == sel)).head? := by
  constructor
  · show (rs.find? (fun r => r.url == sel)).isSome = true
    simp only [List.find?_isSome]
    obtain ⟨r, hr, hu⟩ := h
    exact ⟨r, hr, by simp [hu]⟩
  · exact find?_eq_head?_filter _ _

/-- Witness for C5 on the duplicate-URL sample run. -/
theorem selected_item_first_match_witness :
    (∃ r ∈ sampleRecords, r.url = "https://x.com") ∧
    ((selected_item sampleRecords "https://x.com").isSome = true ∧
     selected_item sampleRecords "https://x.com" =
       (sampleRecords.filter (fun r => r.url == "https://x.com")).head?) :=
  ⟨⟨analyze_url_dummy "https://x.com", by decide, rfl⟩,
   selected_item_first_match _ _ ⟨analyze_url_dummy "https://x.com", by decide, rfl⟩⟩

/-- C6: the chart projection yields one bar group per record in order,
mapping the two categorical scores through the Low/Medium/High table,
and any score outside the table projects to a missing value rather
than an error. -/
theorem chart_projection (df : List SummaryRow) (s : String)
    (hs : s ≠ "Low" ∧ s ≠ "Medium" ∧ s ≠ "High") :
    (chart_df df).length = df.length ∧
    (∀ i : Nat, (chart_df df)[i]? = (df[i]?).map
      (fun r => (⟨r.URL, score_map r.Clarity, score_map r.Empathy⟩ : ChartRow))) ∧
    score_map s = none := by
  refine ⟨?_, ?_, ?_⟩
  · simp [chart_df]
  · intro i
    simp [chart_df]
  · simp [score_map, hs.1, hs.2.1, hs.2.2]

/-- Witness for C6 at the sample run and an out-of-range score value. -/
theorem chart_projection_witness :
    ("N/A" ≠ "Low" ∧ "N/A" ≠ "Medium" ∧ "N/A" ≠ "High") ∧
    ((chart_df (summaryRows sampleRecords)).length = (summaryRows sampleRecords).length ∧
     (∀ i : Nat, (chart_df (summaryRows sampleRecords))[i]? =
        ((summaryRows sampleRecords)[i]?).map
          (fun r => (⟨r.URL, score_map r.Clarity, score_map r.Empathy⟩ : ChartRow))) ∧
     score_map "N/A" = none) :=
  ⟨by decide, chart_projection _ "N/A" (by decide)⟩

/-- C7 counterexample: the selector options are the URL column as-is, so
with a duplicated input URL they are not the distinct URLs of the run. -/
theorem selector_options_not_distinct :
    selector_options (summaryRows sampleRecords) ≠
      distinctInOrder (selector_options (summaryRows sampleRecords)) := by
  decide

/-- C7 amended: the selector offers every result URL in result order,
duplicates retained, and defaults to the first result's URL. -/
theorem selector_options_in_order (rs : List AnalysisRecord) (h : rs ≠ []) :
    selector_options (summaryRows rs) = rs.map (fun r => r.url) ∧
    selector_default (summaryRows rs) = (rs.map (fun r => r.url)).head? ∧
    (selector_default (summaryRows rs)).isSome = true := by
  refine ⟨?_, ?_, ?_⟩
  · unfold selector_options summaryRows
    rw [List.map_map]
    rfl
  · unfold selector_default selector_options summaryRows
    rw [List.map_map]
    rfl
  · unfold selector_default selector_options summaryRows
    cases rs with
    | nil => exact absurd rfl h
    | cons a t => rfl

/-- Witness for C7's amended statement on the sample run. -/
theorem selector_options_in_order_witness :
    sampleRecords ≠ [] ∧
    (selector_options (summaryRows sampleRecords) = sampleRecords.map (fun r => r.url) ∧
     selector_default (summaryRows sampleRecords) =
       (sampleRecords.map (fun r => r.url)).head? ∧
     (selector_default (summaryRows sampleRecords)).isSome = true) :=
  ⟨by decide, selector_options_in_order _ (by decide)⟩

/-- C10: every collector output element is a non-blank, fully trimmed
string (it equals its own strip), and each downstream projection
(record url field, summary URL column, selector options) carries
exactly the collector's elements, preserving the invariant. -/
theorem collect_elements_trimmed (text : String) (u : String)
    (hu : u ∈ collect text) :
    u ≠ "" ∧ strip u = u ∧
    ((collect text).map analyze_url_dummy).map (fun r => r.url) = collect text ∧
    (summaryRows ((collect text).map analyze_url_dummy)).map (fun r => r.URL) = collect text ∧
    selector_options (summaryRows ((collect text).map analyze_url_dummy)) = collect text := by
  have hmem : u ∈ ((splitLines text).filter (fun v => strip v != "")).map strip := by
    rw [← collect_eq_filtered_map]
    exact hu
  rw [List.mem_map] at hmem
  obtain ⟨v, hv, rfl⟩ := hmem
  have hvne : strip v ≠ "" := by
    have hb := (List.mem_filter.mp hv).2
    simpa using hb
  refine ⟨hvne, strip_idem v, ?_, ?_, ?_⟩
  · rw [List.map_map]
    exact List.map_id' _
  · unfold summaryRows
    rw [List.map_map, List.map_map]
    exact List.map_id' _
  · unfold selector_options summaryRows
    rw [List.map_map, List.map_map]
    exact List.map_id' _

/-- Witness for C10 at the spec's two-line scenario with surrounding
whitespace and a blank line. -/
theorem collect_elements_trimmed_witness :
    "https://a.com" ∈ collect "  https://a.com \n\nhttps://b.com" ∧
    ("https://a.com" ≠ "" ∧ strip "https://a.com" = "https://a.com" ∧
     ((collect "  https://a.com \n\nhttps://b.com").map analyze_url_dummy).map
        (fun r => r.url) = collect "  https://a.com \n\nhttps://b.com" ∧
     (summaryRows ((collect "  https://a.com \n\nhttps://b.com").map analyze_url_dummy)).map
        (fun r => r.URL) = collect "  https://a.com \n\nhttps://b.com" ∧
     selector_options (summaryRows
        ((collect "  https://a.com \n\nhttps://b.com").map analyze_url_dummy)) =
       collect "  https://a.com \n\nhttps://b.com") :=
  ⟨by decide, collect_elements_trimmed _ _ (by decide)⟩

end Madison
